import Mathlib

/-!
Verification development for the probe-and-aggregate subsystem of the
repository: the VPN credential scanners (src/vpn_scanner.py and
src/Servis/sers1.py) and the statistics aggregators (src/aggregator.py and
src/python_workers/aggregator_refactored.py).

The Python sources are shallowly embedded: each relevant Python function is
translated into an executable Lean definition over explicit data (HTTP
responses, counter records, snapshot files), and the claims about the
system are settled as theorems about those definitions.
-/

namespace VpnScan

/-! ## Substring matching

Python's `needle in haystack` test on strings, modelled on lists of
characters. -/

/-- cs begins with the given pattern. -/
def charsStartWith : List Char → List Char → Bool
  | [], _ => true
  | _ :: _, [] => false
  | a :: as, b :: bs => a == b && charsStartWith as bs

/-- The pattern occurs contiguously somewhere inside the second list. -/
def charsContain (needle : List Char) : List Char → Bool
  | [] => charsStartWith needle []
  | b :: bs => charsStartWith needle (b :: bs) || charsContain needle bs

/-- Python `needle in hay` for strings. -/
def strContains (hay needle : String) : Bool :=
  charsContain needle.data hay.data

/-! ## HTTP responses and the Fortinet probe (src/vpn_scanner.py lines 144-182)

A response is what `check_fortinet` inspects: the status code, the body
text, and the Location header (empty string when the header is absent,
matching `response.headers.get("Location", "")`). -/

structure HttpResponse where
  status : Nat
  body : String
  location : String
deriving DecidableEq, Repr

/-- SUCCESS_INDICATORS["fortinet"] from src/vpn_scanner.py lines 67-82. -/
def fortinetIndicators : List String :=
  ["vpn/tunnel", "/remote/fortisslvpn", "tunnel_mode", "sslvpn_login",
   "forticlient_download", "portal.html", "welcome.html", "fgt_lang",
   "FortiGate", "sslvpn_portal", "logout", "dashboard", "web_access",
   "tunnel_access"]

/-- The Location-header markers checked on a 301/302 redirect,
src/vpn_scanner.py line 175. -/
def redirectLocationMarkers : List String :=
  ["portal", "tunnel", "sslvpn", "welcome", "dashboard"]

/-- The response classification performed by `check_fortinet`
(src/vpn_scanner.py lines 161-178): a 200 whose body contains a success
indicator is True; a 301/302 whose Location contains a redirect marker is
True; every other response is False. -/
def check_fortinet (resp : HttpResponse) : Bool :=
  if resp.status == 200 && fortinetIndicators.any (fun ind => strContains resp.body ind) then
    true
  else if (resp.status == 301 || resp.status == 302) &&
      redirectLocationMarkers.any (fun m => strContains resp.location m) then
    true
  else
    false

/-! ## Scanner counters (src/vpn_scanner.py lines 49-57) -/

/-- The `stats` dictionary of the scanner (the derived float `rps` field is
kept out of the counter record; it is recomputed from `processed` and does
not take part in the counting claims). -/
structure Stats where
  goods : Nat
  bads : Nat
  errors : Nat
  offline : Nat
  ipblock : Nat
  processed : Nat
deriving DecidableEq, Repr

/-- All counters start at zero. -/
def initStats : Stats := ⟨0, 0, 0, 0, 0, 0⟩

/-- Sum of the five outcome counters. -/
def outcomeSum (s : Stats) : Nat :=
  s.goods + s.bads + s.errors + s.offline + s.ipblock

/-! ## Per-item processing (src/vpn_scanner.py lines 384-451)

One completed `process_credential` task ends in exactly one of these ways:
the probe returned True and the append to the results log succeeded; the
probe returned True but the append raised (caught by the generic handler at
line 447, after `goods` was already incremented at line 429); the probe
returned False; the probe raised TimeoutError; the probe raised some other
exception. -/

inductive ProbeEvent where
  | success (appendOk : Bool)
  | rejected
  | timeout
  | error
deriving DecidableEq, Repr

/-- The counter update performed by one completed `process_credential`
task, read off the control flow of src/vpn_scanner.py lines 428-451.
When the probe succeeds but the append to the results log raises, control
jumps from line 431 into the handler at lines 447-449: `goods` has already
been incremented, and the handler additionally increments `errors` and
`processed` (the `processed` increment at line 439 is skipped). -/
def process_credential (s : Stats) : ProbeEvent → Stats
  | .success true =>
      { s with goods := s.goods + 1, processed := s.processed + 1 }
  | .success false =>
      { s with goods := s.goods + 1, errors := s.errors + 1,
               processed := s.processed + 1 }
  | .rejected =>
      { s with bads := s.bads + 1, processed := s.processed + 1 }
  | .timeout =>
      { s with offline := s.offline + 1, processed := s.processed + 1 }
  | .error =>
      { s with errors := s.errors + 1, processed := s.processed + 1 }

/-- Mapping from the boolean probe result to the event of the completed
task: result True takes the `goods` branch (line 428), result False the
`bads` branch (line 434). -/
def eventOfProbe (result : Bool) (appendOk : Bool) : ProbeEvent :=
  if result then .success appendOk else .rejected

/-- Quiescent-state counters of a run of src/vpn_scanner.py: each input
item contributes the delta of its completed task, and counter increments
commute, so every interleaving of completions reaches the same quiescent
counters as folding the per-item updates in some order. -/
def runStats (evs : List ProbeEvent) : Stats :=
  evs.foldl process_credential initStats

/-- Number of items whose probe succeeded but whose append to the results
log failed. -/
def appendFailures : List ProbeEvent → Nat
  | [] => 0
  | .success false :: evs => appendFailures evs + 1
  | _ :: evs => appendFailures evs

/-! ## Per-item processing of src/Servis/sers1.py lines 60-79

The `worker` coroutine increments `processed` first (line 63) and then
records exactly one outcome, except that a failed append to valid.txt
after `goods` was incremented (lines 69-71) falls into the generic handler
(lines 78-79) which additionally increments `errors`.
`aiohttp.ClientConnectionError` is counted as `offline` (lines 76-77). -/

inductive WorkerEvent where
  | success (appendOk : Bool)
  | rejected
  | timeout
  | connError
  | error
deriving DecidableEq, Repr

/-- The counter update of one completed `worker` task of
src/Servis/sers1.py. -/
def sers1_worker (s : Stats) : WorkerEvent → Stats
  | .success true =>
      { s with processed := s.processed + 1, goods := s.goods + 1 }
  | .success false =>
      { s with processed := s.processed + 1, goods := s.goods + 1,
               errors := s.errors + 1 }
  | .rejected =>
      { s with processed := s.processed + 1, bads := s.bads + 1 }
  | .timeout =>
      { s with processed := s.processed + 1, offline := s.offline + 1 }
  | .connError =>
      { s with processed := s.processed + 1, offline := s.offline + 1 }
  | .error =>
      { s with processed := s.processed + 1, errors := s.errors + 1 }

/-- Quiescent-state counters of a run of src/Servis/sers1.py. -/
def runWorker (evs : List WorkerEvent) : Stats :=
  evs.foldl sers1_worker initStats

/-- Number of sers1 items whose append to valid.txt failed. -/
def workerAppendFailures : List WorkerEvent → Nat
  | [] => 0
  | .success false :: evs => workerAppendFailures evs + 1
  | _ :: evs => workerAppendFailures evs

/-! ## Scanner startup (src/vpn_scanner.py lines 41-46) -/

/-- The state of the credentials source file at startup: absent
(`os.path.exists` is false, line 41), existing but unreadable (`open`
raises and the interpreter exits with a nonzero status), or readable with
the given raw lines. -/
inductive SourceStatus where
  | missing
  | unreadable
  | readable (lines : List String)
deriving DecidableEq, Repr

/-- Python str.strip on the character list: drop whitespace at both
ends. -/
def stripChars (l : List Char) : List Char :=
  ((l.dropWhile Char.isWhitespace).reverse.dropWhile Char.isWhitespace).reverse

/-- Python str.strip. -/
def pyStrip (s : String) : String :=
  ⟨stripChars s.data⟩

/-- Line filtering of src/vpn_scanner.py line 46: keep `line.strip()` for
every line whose stripped form is nonempty and that does not start with
`#`. -/
def parseCreds (lines : List String) : List String :=
  (lines.filter
    (fun l => !((pyStrip l).data.isEmpty) && !(charsStartWith "#".data l.data))).map pyStrip

/-- Startup of src/vpn_scanner.py: a missing file prints an error and
calls `sys.exit(1)` (line 43); an unreadable file raises out of `open`
and the interpreter exits nonzero (modelled as exit status 1); otherwise
the filtered credential list is produced and the run proceeds. -/
def scannerStartup : SourceStatus → Except Nat (List String)
  | .missing => .error 1
  | .unreadable => .error 1
  | .readable lines => .ok (parseCreds lines)

/-- Process exit status of the scanner: the startup exit status when
startup aborts, else 0, since `main()` runs to completion over any
credential list (src/vpn_scanner.py lines 472-518) and the interpreter
then exits 0. -/
def scannerExitCode (st : SourceStatus) : Nat :=
  match scannerStartup st with
  | .error c => c
  | .ok _ => 0

/-! ## The concurrency gate (src/vpn_scanner.py lines 62-63 and 161-182)

`asyncio.Semaphore(args.threads)` bounds the number of probe HTTP requests
in flight: every probe body is wrapped in `async with semaphore: ...`
(e.g. lines 162-178 of `check_fortinet`), so the slot is acquired before
the request is issued and released on every exit from the block, whether it
ends normally, with a timeout, or with any other exception.  The scheduler
is modelled as a labelled transition system over the phases of the probe
tasks. -/

inductive Phase where
  | pending
  | running
  | done
deriving DecidableEq, Repr

/-- How the `async with semaphore` block of a probe exits: the post
returned and classification finished (with the given boolean result), the
request timed out (`asyncio.TimeoutError`, line 179), or some other
exception was raised (line 181).  Every one of these paths leaves the
`async with` block and therefore releases the semaphore slot. -/
inductive FinishKind where
  | ok (result : Bool)
  | timeout
  | failure
deriving DecidableEq, Repr

/-- Number of probes currently inside the semaphore-guarded block. -/
def runningCount : List Phase → Nat
  | [] => 0
  | Phase.running :: ts => runningCount ts + 1
  | _ :: ts => runningCount ts

/-- One scheduler step of the scanner: a pending task may enter the
guarded block only when fewer than `threads` tasks hold a slot
(`semaphore.acquire` suspends otherwise), and a running task may finish in
any of the `FinishKind` ways, leaving the block and releasing its slot. -/
inductive ScanStep (threads : Nat) : List Phase → List Phase → Prop where
  | acquire (ts : List Phase) (i : Nat)
      (hp : ts.get? i = some Phase.pending)
      (hfree : runningCount ts < threads) :
      ScanStep threads ts (ts.set i Phase.running)
  | finish (ts : List Phase) (i : Nat) (k : FinishKind)
      (hr : ts.get? i = some Phase.running) :
      ScanStep threads ts (ts.set i Phase.done)

/-- States reachable from the initial state in which all `n` credential
tasks created at src/vpn_scanner.py lines 489-492 are pending. -/
inductive ScanReach (threads n : Nat) : List Phase → Prop where
  | init : ScanReach threads n (List.replicate n Phase.pending)
  | step {ts ts' : List Phase} :
      ScanReach threads n ts → ScanStep threads ts ts' → ScanReach threads n ts'

/-! ## Snapshot publication (src/vpn_scanner.py lines 453-470,
src/Servis/sers1.py lines 53-58)

The two stats publishers use different file operations.  sers1's
`dump_stats` writes the serialized payload to a temporary path and then
renames it over the canonical path (`tmp.write_text(...)`;
`tmp.replace(STATS_PATH)` — an atomic rename).  vpn_scanner's
`update_stats` opens the canonical path itself with mode "w" (which
truncates it in place) and then writes the payload into it.  The model
tracks the contents of the canonical path and of the temporary path and
records every intermediate state a concurrent reader could observe. -/

structure FsState where
  canon : String
  tmp : String
deriving DecidableEq, Repr

inductive FileOp where
  | writeTmp (s : String)
  | replaceTmpOverCanon
  | openTruncCanon
  | writeIntoCanon (s : String)
deriving DecidableEq, Repr

/-- Effect of one file operation: writing the temporary path leaves the
canonical path untouched; the rename atomically installs the temporary
contents as the canonical contents; opening the canonical path with mode
"w" truncates it to empty; writing into the opened canonical file appends
the payload. -/
def applyOp (st : FsState) : FileOp → FsState
  | .writeTmp s => { st with tmp := s }
  | .replaceTmpOverCanon => { st with canon := st.tmp }
  | .openTruncCanon => { st with canon := "" }
  | .writeIntoCanon s => { st with canon := st.canon ++ s }

/-- The operations of one iteration of sers1's `dump_stats`
(src/Servis/sers1.py lines 55-57). -/
def dump_stats_ops (payload : String) : List FileOp :=
  [.writeTmp payload, .replaceTmpOverCanon]

/-- The operations of one iteration of vpn_scanner's `update_stats`
(src/vpn_scanner.py lines 461-463): `open(stats_file, "w")` truncates the
canonical file, then `json.dump` writes the payload into it. -/
def update_stats_ops (payload : String) : List FileOp :=
  [.openTruncCanon, .writeIntoCanon payload]

/-- All file states along the execution of an operation list, the initial
state included: at any of these instants a concurrent reader may open and
read the canonical path. -/
def statesFrom (st : FsState) : List FileOp → List FsState
  | [] => [st]
  | op :: ops => st :: statesFrom (applyOp st op) ops

/-- The canonical-path contents a concurrent reader can observe while the
operations run. -/
def canonTrace (st : FsState) (ops : List FileOp) : List String :=
  (statesFrom st ops).map FsState.canon

/-! ## The aggregators

src/python_workers/aggregator_refactored.py polls `stats_*.json` files,
parses each one, and merges them into an `AggregatedStats`; a file whose
read or parse raises is skipped by the per-file `except` (lines 159-160)
and the cycle continues.  src/aggregator.py computes an aggregate speed as
`processed / (time.time() - start + 1e-3)` (line 73). -/

/-- The parsed content of one worker snapshot file, after the numeric
`data.get(key, 0)` defaults of `ServerStats.from_dict`
(src/python_workers/aggregator_refactored.py lines 71-84) have been
applied.  The `timestamp` key may be absent from the JSON object (the
snapshot written by src/vpn_scanner.py has no such key), hence an Option;
every other field of interest defaults to 0 and is kept total. -/
structure WorkerSnapshot where
  goods : Nat
  bads : Nat
  errors : Nat
  offline : Nat
  ipblock : Nat
  processed : Nat
  rps : ℚ
  timestamp : Option Int
deriving DecidableEq

/-- `ServerStats` of src/python_workers/aggregator_refactored.py
(lines 58-84). -/
structure ServerStats where
  ip : String
  goods : Nat
  bads : Nat
  errors : Nat
  offline : Nat
  ipblock : Nat
  processed : Nat
  rps : ℚ
  timestamp : Int
deriving DecidableEq

/-- `ServerStats.from_dict` (lines 71-84): a missing `timestamp` key
defaults to `int(time.time())`, the current poll time. -/
def ServerStats.from_dict (ip : String) (now : Int) (d : WorkerSnapshot) : ServerStats :=
  { ip := ip, goods := d.goods, bads := d.bads, errors := d.errors,
    offline := d.offline, ipblock := d.ipblock, processed := d.processed,
    rps := d.rps, timestamp := d.timestamp.getD now }

/-- `AggregatedStats` of src/python_workers/aggregator_refactored.py
(lines 30-56), restricted to the fields `collect_stats` fills in. -/
structure AggregatedStats where
  goods : Nat
  bads : Nat
  errors : Nat
  offline : Nat
  ipblock : Nat
  processed : Nat
  rps : ℚ
  servers : Nat
  active_servers : Nat
deriving DecidableEq

def AggregatedStats.zero : AggregatedStats :=
  { goods := 0, bads := 0, errors := 0, offline := 0, ipblock := 0,
    processed := 0, rps := 0, servers := 0, active_servers := 0 }

/-- The liveness test of line 148: `time.time() - server_stats.timestamp < 30`. -/
def isActive (now ts : Int) : Bool :=
  now - ts < 30

/-- Python dict assignment `self.server_stats[ip] = server_stats`
(line 145) on the association-list model of the dict: replace the entry
with this key when present, else append it. -/
def insertServer (m : List (String × ServerStats)) (ip : String) (v : ServerStats) :
    List (String × ServerStats) :=
  if m.any (fun p => p.1 == ip) then
    m.map (fun p => if p.1 == ip then (ip, v) else p)
  else
    m ++ [(ip, v)]

/-- Python set add `active_servers.add(ip)` (line 149) on the list model
of the set. -/
def insertActive (s : List String) (ip : String) : List String :=
  if s.any (fun x => x == ip) then s else s ++ [ip]

/-- Whether the association-list model of a dict has the key. -/
def hasKey (m : List (String × ServerStats)) (ip : String) : Bool :=
  m.any (fun p => p.1 == ip)

/-- The body of the per-file loop of `collect_stats` (lines 133-160): a
file whose read or JSON parse raised (`none`) is skipped by the
per-file handler and changes nothing; a readable file is turned into a
`ServerStats` (line 144), stored into the persistent `self.server_stats`
dict (line 145), added to the cycle's active set when its timestamp passes
the liveness test (lines 147-149), and its counters — `rps` included —
are added to the cycle's running totals (lines 151-158). -/
def collectStep (now : Int)
    (st : AggregatedStats × List String × List (String × ServerStats))
    (file : String × Option WorkerSnapshot) :
    AggregatedStats × List String × List (String × ServerStats) :=
  match file.2 with
  | none => st
  | some d =>
      let ss := ServerStats.from_dict file.1 now d
      let agg := st.1
      let agg' : AggregatedStats :=
        { agg with goods := agg.goods + ss.goods, bads := agg.bads + ss.bads,
                   errors := agg.errors + ss.errors, offline := agg.offline + ss.offline,
                   ipblock := agg.ipblock + ss.ipblock, processed := agg.processed + ss.processed,
                   rps := agg.rps + ss.rps }
      let active' := if isActive now ss.timestamp then insertActive st.2.1 file.1 else st.2.1
      (agg', active', insertServer st.2.2 file.1 ss)

/-- One cycle of `StatsAggregator.collect_stats` (lines 123-171): the
running totals and the cycle's active set start empty (lines 126-130)
while the per-worker dict `self.server_stats` persists from the previous
cycle; after the loop, `servers` is the size of the persistent dict and
`active_servers` the size of the cycle's active set (lines 162-164).
Returns the published `AggregatedStats` together with the persistent dict
handed to the next cycle.  Each file is given as its ip (from the file
name, line 141) paired with `some` parsed snapshot, or `none` when reading
or parsing it raises. -/
def collect_stats (now : Int) (files : List (String × Option WorkerSnapshot))
    (prev : List (String × ServerStats)) :
    AggregatedStats × List (String × ServerStats) :=
  let r := files.foldl (collectStep now) (AggregatedStats.zero, [], prev)
  ({ r.1 with servers := r.2.2.length, active_servers := r.2.1.length }, r.2.2)

/-- The snapshots of the files readable in a cycle, in file order. -/
def readSnaps (files : List (String × Option WorkerSnapshot)) : List WorkerSnapshot :=
  files.filterMap (fun f => f.2)

/-- The ips of the files readable in a cycle. -/
def readableIps (files : List (String × Option WorkerSnapshot)) : List String :=
  (files.filter (fun f => f.2.isSome)).map (fun f => f.1)

/-- The aggregate speed of src/aggregator.py line 73:
`processed / (time.time() - start + 1e-3)`, with `start` fixed once at
startup (line 53). -/
def aggSpeed (processed : Nat) (now start : ℚ) : ℚ :=
  (processed : ℚ) / (now - start + 1 / 1000)

/-- The snapshot JSON written by src/vpn_scanner.py `update_stats`
(lines 461-463): exactly the keys of the `stats` dict — the six counters
and `rps` — and in particular no `timestamp` key. -/
def scannerSnapshot (s : Stats) (rps : ℚ) : WorkerSnapshot :=
  { goods := s.goods, bads := s.bads, errors := s.errors, offline := s.offline,
    ipblock := s.ipblock, processed := s.processed, rps := rps, timestamp := none }

/-! ## Concrete snapshots used in counterexamples and witnesses -/

def c5snap : WorkerSnapshot := ⟨1, 2, 3, 4, 5, 6, 0, some 0⟩

def c6snap1 : WorkerSnapshot := ⟨0, 0, 0, 0, 0, 4, 0, some 90⟩

def c6snap2 : WorkerSnapshot := ⟨0, 0, 0, 0, 0, 9, 0, some 40⟩

def c7snap : WorkerSnapshot := ⟨0, 0, 0, 0, 0, 100, 5, some 0⟩

/-! ## Helper lemmas -/

theorem scan_sum_aux (evs : List ProbeEvent) : ∀ s : Stats,
    outcomeSum (evs.foldl process_credential s) + s.processed
      = (evs.foldl process_credential s).processed + outcomeSum s + appendFailures evs := by
  induction evs with
  | nil => intro s; simp only [List.foldl_nil, appendFailures]; omega
  | cons e evs ih =>
    intro s
    have h := ih (process_credential s e)
    cases e with
    | success ok =>
      cases ok with
      | false =>
        simp only [List.foldl_cons, appendFailures, process_credential, outcomeSum] at h ⊢
        omega
      | true =>
        simp only [List.foldl_cons, appendFailures, process_credential, outcomeSum] at h ⊢
        omega
    | rejected =>
      simp only [List.foldl_cons, appendFailures, process_credential, outcomeSum] at h ⊢
      omega
    | timeout =>
      simp only [List.foldl_cons, appendFailures, process_credential, outcomeSum] at h ⊢
      omega
    | error =>
      simp only [List.foldl_cons, appendFailures, process_credential, outcomeSum] at h ⊢
      omega

theorem worker_sum_aux (evs : List WorkerEvent) : ∀ s : Stats,
    outcomeSum (evs.foldl sers1_worker s) + s.processed
      = (evs.foldl sers1_worker s).processed + outcomeSum s + workerAppendFailures evs := by
  induction evs with
  | nil => intro s; simp only [List.foldl_nil, workerAppendFailures]; omega
  | cons e evs ih =>
    intro s
    have h := ih (sers1_worker s e)
    cases e with
    | success ok =>
      cases ok with
      | false =>
        simp only [List.foldl_cons, workerAppendFailures, sers1_worker, outcomeSum] at h ⊢
        omega
      | true =>
        simp only [List.foldl_cons, workerAppendFailures, sers1_worker, outcomeSum] at h ⊢
        omega
    | rejected =>
      simp only [List.foldl_cons, workerAppendFailures, sers1_worker, outcomeSum] at h ⊢
      omega
    | timeout =>
      simp only [List.foldl_cons, workerAppendFailures, sers1_worker, outcomeSum] at h ⊢
      omega
    | connError =>
      simp only [List.foldl_cons, workerAppendFailures, sers1_worker, outcomeSum] at h ⊢
      omega
    | error =>
      simp only [List.foldl_cons, workerAppendFailures, sers1_worker, outcomeSum] at h ⊢
      omega

theorem runningCount_replicate_pending (n : Nat) :
    runningCount (List.replicate n Phase.pending) = 0 := by
  induction n with
  | zero => rfl
  | succ m ih => simpa [List.replicate_succ, runningCount] using ih

theorem runningCount_set_run (ts : List Phase) (i : Nat)
    (h : ts.get? i = some Phase.pending) :
    runningCount (ts.set i Phase.running) = runningCount ts + 1 := by
  induction ts generalizing i with
  | nil => simp at h
  | cons a ts ih =>
    cases i with
    | zero =>
      simp only [List.get?] at h
      injection h with h
      subst h
      simp [List.set, runningCount]
    | succ i =>
      simp only [List.get?] at h
      cases a <;> simp [List.set, runningCount, ih i h]

theorem runningCount_set_done (ts : List Phase) (i : Nat)
    (h : ts.get? i = some Phase.running) :
    runningCount (ts.set i Phase.done) + 1 = runningCount ts := by
  induction ts generalizing i with
  | nil => simp at h
  | cons a ts ih =>
    cases i with
    | zero =>
      simp only [List.get?] at h
      injection h with h
      subst h
      simp [List.set, runningCount]
    | succ i =>
      simp only [List.get?] at h
      cases a <;> simp [List.set, runningCount, ih i h]

theorem scanReach_bound {threads n : Nat} {ts : List Phase}
    (h : ScanReach threads n ts) : runningCount ts ≤ threads := by
  induction h with
  | init => simp [runningCount_replicate_pending]
  | step hr hs ih =>
    cases hs with
    | acquire i hp hfree =>
      rw [runningCount_set_run _ i hp]
      omega
    | finish i k hrun =>
      have hd := runningCount_set_done _ i hrun
      omega

theorem ipblock_fold_aux (evs : List ProbeEvent) : ∀ s : Stats,
    (evs.foldl process_credential s).ipblock = s.ipblock := by
  induction evs with
  | nil => intro s; rfl
  | cons e evs ih =>
    intro s
    have h := ih (process_credential s e)
    cases e with
    | success ok => cases ok <;> simpa [process_credential] using h
    | rejected => simpa [process_credential] using h
    | timeout => simpa [process_credential] using h
    | error => simpa [process_credential] using h

theorem anyKey_map_insert (m : List (String × ServerStats)) (k ip : String) (v : ServerStats) :
    (m.map fun p => if p.1 == k then (k, v) else p).any (fun p => p.1 == ip)
      = m.any (fun p => p.1 == ip) := by
  induction m with
  | nil => rfl
  | cons p m ih =>
    simp only [List.map_cons, List.any_cons, ih]
    by_cases hpk : (p.1 == k) = true
    · have hp : p.1 = k := by simpa using hpk
      simp [hpk, hp]
    · simp only [Bool.not_eq_true] at hpk
      simp [hpk]

theorem hasKey_insertServer (m : List (String × ServerStats)) (k ip : String) (v : ServerStats) :
    hasKey (insertServer m k v) ip = (hasKey m ip || k == ip) := by
  unfold insertServer hasKey
  by_cases hk : m.any (fun p => p.1 == k) = true
  · simp only [hk, if_true, anyKey_map_insert]
    by_cases hki : k = ip
    · subst hki
      simp [hk]
    · have : (k == ip) = false := by simpa using hki
      simp [this]
  · simp only [Bool.not_eq_true] at hk
    simp [hk, List.any_append]

theorem collect_keys_aux (now : Int) (files : List (String × Option WorkerSnapshot)) :
    ∀ (a : AggregatedStats) (act : List String) (m : List (String × ServerStats)) (ip : String),
      hasKey (files.foldl (collectStep now) (a, act, m)).2.2 ip
        = (hasKey m ip || (readableIps files).any (fun x => x == ip)) := by
  induction files with
  | nil => intro a act m ip; simp [readableIps]
  | cons f files ih =>
    intro a act m ip
    obtain ⟨fip, od⟩ := f
    cases od with
    | none => simp [List.foldl_cons, collectStep, readableIps, List.filter_cons, ih]
    | some d =>
      simp only [List.foldl_cons, collectStep, readableIps, List.filter_cons, Option.isSome_some,
        if_true, List.map_cons, List.any_cons, ih, hasKey_insertServer]
      cases hasKey m ip <;> cases (fip == ip) <;> simp

theorem collect_goods_aux (now : Int) (files : List (String × Option WorkerSnapshot)) :
    ∀ (a : AggregatedStats) (act : List String) (m : List (String × ServerStats)),
      (files.foldl (collectStep now) (a, act, m)).1.goods
        = a.goods + ((readSnaps files).map (fun d => d.goods)).sum := by
  induction files with
  | nil => intro a act m; simp [readSnaps]
  | cons f files ih =>
    intro a act m
    obtain ⟨fip, od⟩ := f
    cases od with
    | none => simp [List.foldl_cons, collectStep, readSnaps, List.filterMap_cons, ih]
    | some d =>
      simp [List.foldl_cons, collectStep, readSnaps, List.filterMap_cons, ih,
        ServerStats.from_dict]
      omega

theorem collect_bads_aux (now : Int) (files : List (String × Option WorkerSnapshot)) :
    ∀ (a : AggregatedStats) (act : List String) (m : List (String × ServerStats)),
      (files.foldl (collectStep now) (a, act, m)).1.bads
        = a.bads + ((readSnaps files).map (fun d => d.bads)).sum := by
  induction files with
  | nil => intro a act m; simp [readSnaps]
  | cons f files ih =>
    intro a act m
    obtain ⟨fip, od⟩ := f
    cases od with
    | none => simp [List.foldl_cons, collectStep, readSnaps, List.filterMap_cons, ih]
    | some d =>
      simp [List.foldl_cons, collectStep, readSnaps, List.filterMap_cons, ih,
        ServerStats.from_dict]
      omega

theorem collect_errors_aux (now : Int) (files : List (String × Option WorkerSnapshot)) :
    ∀ (a : AggregatedStats) (act : List String) (m : List (String × ServerStats)),
      (files.foldl (collectStep now) (a, act, m)).1.errors
        = a.errors + ((readSnaps files).map (fun d => d.errors)).sum := by
  induction files with
  | nil => intro a act m; simp [readSnaps]
  | cons f files ih =>
    intro a act m
    obtain ⟨fip, od⟩ := f
    cases od with
    | none => simp [List.foldl_cons, collectStep, readSnaps, List.filterMap_cons, ih]
    | some d =>
      simp [List.foldl_cons, collectStep, readSnaps, List.filterMap_cons, ih,
        ServerStats.from_dict]
      omega

theorem collect_offline_aux (now : Int) (files : List (String × Option WorkerSnapshot)) :
    ∀ (a : AggregatedStats) (act : List String) (m : List (String × ServerStats)),
      (files.foldl (collectStep now) (a, act, m)).1.offline
        = a.offline + ((readSnaps files).map (fun d => d.offline)).sum := by
  induction files with
  | nil => intro a act m; simp [readSnaps]
  | cons f files ih =>
    intro a act m
    obtain ⟨fip, od⟩ := f
    cases od with
    | none => simp [List.foldl_cons, collectStep, readSnaps, List.filterMap_cons, ih]
    | some d =>
      simp [List.foldl_cons, collectStep, readSnaps, List.filterMap_cons, ih,
        ServerStats.from_dict]
      omega

theorem collect_ipblock_aux (now : Int) (files : List (String × Option WorkerSnapshot)) :
    ∀ (a : AggregatedStats) (act : List String) (m : List (String × ServerStats)),
      (files.foldl (collectStep now) (a, act, m)).1.ipblock
        = a.ipblock + ((readSnaps files).map (fun d => d.ipblock)).sum := by
  induction files with
  | nil => intro a act m; simp [readSnaps]
  | cons f files ih =>
    intro a act m
    obtain ⟨fip, od⟩ := f
    cases od with
    | none => simp [List.foldl_cons, collectStep, readSnaps, List.filterMap_cons, ih]
    | some d =>
      simp [List.foldl_cons, collectStep, readSnaps, List.filterMap_cons, ih,
        ServerStats.from_dict]
      omega

theorem collect_processed_aux (now : Int) (files : List (String × Option WorkerSnapshot)) :
    ∀ (a : AggregatedStats) (act : List String) (m : List (String × ServerStats)),
      (files.foldl (collectStep now) (a, act, m)).1.processed
        = a.processed + ((readSnaps files).map (fun d => d.processed)).sum := by
  induction files with
  | nil => intro a act m; simp [readSnaps]
  | cons f files ih =>
    intro a act m
    obtain ⟨fip, od⟩ := f
    cases od with
    | none => simp [List.foldl_cons, collectStep, readSnaps, List.filterMap_cons, ih]
    | some d =>
      simp [List.foldl_cons, collectStep, readSnaps, List.filterMap_cons, ih,
        ServerStats.from_dict]
      omega

theorem collect_rps_aux (now : Int) (files : List (String × Option WorkerSnapshot)) :
    ∀ (a : AggregatedStats) (act : List String) (m : List (String × ServerStats)),
      (files.foldl (collectStep now) (a, act, m)).1.rps
        = a.rps + ((readSnaps files).map (fun d => d.rps)).sum := by
  induction files with
  | nil => intro a act m; simp [readSnaps]
  | cons f files ih =>
    intro a act m
    obtain ⟨fip, od⟩ := f
    cases od with
    | none => simp [List.foldl_cons, collectStep, readSnaps, List.filterMap_cons, ih]
    | some d =>
      simp [List.foldl_cons, collectStep, readSnaps, List.filterMap_cons, ih,
        ServerStats.from_dict]
      ring

/-! ## Claim theorems -/

/-- C1, counterexample: in the run of a single item whose probe succeeds
but whose append to the results log fails, the quiescent counters of
src/vpn_scanner.py violate processed = goods + bads + errors + offline +
ipblock: the item is double-counted (goods and errors) while processed
advances once. -/
theorem c1_sum_consistency_counterexample :
    (runStats [ProbeEvent.success false]).processed ≠
      (runStats [ProbeEvent.success false]).goods + (runStats [ProbeEvent.success false]).bads +
      (runStats [ProbeEvent.success false]).errors + (runStats [ProbeEvent.success false]).offline +
      (runStats [ProbeEvent.success false]).ipblock := by
  decide

/-- C1, amended: in every quiescent state of a run of src/vpn_scanner.py
or src/Servis/sers1.py, goods + bads + errors + offline + ipblock =
processed + (number of items whose probe succeeded but whose append to the
results log failed).  In particular the claimed invariant processed =
goods + bads + errors + offline + ipblock holds exactly in the runs in
which no append to the results log fails. -/
theorem c1_sum_consistency_amended (evs : List ProbeEvent) (wevs : List WorkerEvent) :
    (runStats evs).goods + (runStats evs).bads + (runStats evs).errors +
        (runStats evs).offline + (runStats evs).ipblock
      = (runStats evs).processed + appendFailures evs ∧
    (runWorker wevs).goods + (runWorker wevs).bads + (runWorker wevs).errors +
        (runWorker wevs).offline + (runWorker wevs).ipblock
      = (runWorker wevs).processed + workerAppendFailures wevs := by
  constructor
  · have h := scan_sum_aux evs initStats
    simp only [runStats, outcomeSum, initStats] at h ⊢
    omega
  · have h := worker_sum_aux wevs initStats
    simp only [runWorker, outcomeSum, initStats] at h ⊢
    omega

/-- C2: in every state reachable by the scanner's scheduler from the
initial state of n pending probe tasks, at most `threads` probes are
inside the semaphore-guarded block simultaneously; moreover from every
running probe, every exit kind (normal completion, timeout, or any other
failure) is a legal step that releases exactly one slot. -/
theorem c2_concurrency_bound (threads n : Nat) (hT : 1 ≤ threads)
    (ts : List Phase) (h : ScanReach threads n ts) :
    runningCount ts ≤ threads ∧
      ∀ (i : Nat) (k : FinishKind), ts.get? i = some Phase.running →
        ScanStep threads ts (ts.set i Phase.done) ∧
          runningCount (ts.set i Phase.done) + 1 = runningCount ts := by
  refine ⟨scanReach_bound h, fun i k hr => ⟨ScanStep.finish ts i k hr, ?_⟩⟩
  exact runningCount_set_done ts i hr

/-- C2 witness: with threads = 1 and two credential tasks, after one
acquire step one probe is running, within the bound. -/
theorem c2_concurrency_bound_witness :
    runningCount [Phase.running, Phase.pending] ≤ 1 :=
  (c2_concurrency_bound 1 2 (by decide) [Phase.running, Phase.pending]
    (ScanReach.step ScanReach.init
      (ScanStep.acquire (List.replicate 2 Phase.pending) 0 rfl (by decide)))).1

/-- C3, counterexample: vpn_scanner's `update_stats` truncates the
canonical snapshot file in place, so while it runs a concurrent reader can
observe the empty file — a state that is neither the old nor the new
complete snapshot (and not a valid JSON document). -/
theorem c3_atomic_publish_counterexample :
    "" ∈ canonTrace ⟨"A", ""⟩ (update_stats_ops "B") ∧
    ("" : String) ≠ "A" ∧ ("" : String) ≠ "B" := by
  decide

/-- C3, amended: sers1's `dump_stats` publishes atomically — along its
write the canonical path only ever holds the old or the new snapshot — but
vpn_scanner's `update_stats` writes the canonical path directly with
truncation, so a concurrent reader can observe a truncated (empty)
document between the old and the new contents. -/
theorem c3_atomic_publish_amended (old tmp0 payload : String) :
    canonTrace ⟨old, tmp0⟩ (dump_stats_ops payload) = [old, old, payload] ∧
    canonTrace ⟨old, tmp0⟩ (update_stats_ops payload) = [old, "", payload] := by
  constructor
  · rfl
  · show [old, "", "" ++ payload] = [old, "", payload]
    simp

/-- C4: an HTTP response whose body contains none of the configured
fortinet success indicators and whose Location header contains none of the
configured redirect markers is classified False by `check_fortinet`
whatever its status code, and the item is then counted in bads (Rejected),
never in goods (Accepted). -/
theorem c4_ambiguity_bias (resp : HttpResponse) (ok : Bool) (s : Stats)
    (hbody : ∀ ind ∈ fortinetIndicators, strContains resp.body ind = false)
    (hloc : ∀ m ∈ redirectLocationMarkers, strContains resp.location m = false) :
    check_fortinet resp = false ∧
    eventOfProbe (check_fortinet resp) ok = ProbeEvent.rejected ∧
    (process_credential s (eventOfProbe (check_fortinet resp) ok)).bads = s.bads + 1 ∧
    (process_credential s (eventOfProbe (check_fortinet resp) ok)).goods = s.goods := by
  have h1 : fortinetIndicators.any (fun ind => strContains resp.body ind) = false := by
    simp only [List.any_eq_false]
    intro ind hind
    simp [hbody ind hind]
  have h2 : redirectLocationMarkers.any (fun m => strContains resp.location m) = false := by
    simp only [List.any_eq_false]
    intro m hm
    simp [hloc m hm]
  have hc : check_fortinet resp = false := by
    simp [check_fortinet, h1, h2]
  refine ⟨hc, ?_, ?_, ?_⟩ <;> simp [eventOfProbe, hc, process_credential]

/-- C4 witness: a 200 response with empty body and no Location header
matches no indicator and is counted Rejected. -/
theorem c4_ambiguity_bias_witness :
    check_fortinet ⟨200, "", ""⟩ = false ∧
    eventOfProbe (check_fortinet ⟨200, "", ""⟩) true = ProbeEvent.rejected ∧
    (process_credential initStats (eventOfProbe (check_fortinet ⟨200, "", ""⟩) true)).bads
      = initStats.bads + 1 ∧
    (process_credential initStats (eventOfProbe (check_fortinet ⟨200, "", ""⟩) true)).goods
      = initStats.goods :=
  c4_ambiguity_bias ⟨200, "", ""⟩ true initStats (by decide) (by decide)

/-- C5, counterexample: the per-worker dict `self.server_stats` persists
across cycles, so a source that was readable in an earlier cycle and is
unreadable in the current cycle is still present in the view: with one
source "A" read in cycle one and unreadable in cycle two, cycle two
reports servers = 1 and still carries key "A", although "A" contributed no
readable snapshot to that cycle. -/
theorem c5_partial_failure_counterexample :
    (collect_stats 100 [("A", none)] (collect_stats 0 [("A", some c5snap)] []).2).1.servers = 1 ∧
    hasKey (collect_stats 100 [("A", none)] (collect_stats 0 [("A", some c5snap)] []).2).2 "A"
      = true ∧
    readSnaps [(("A" : String), (none : Option WorkerSnapshot))] = [] := by
  decide

/-- C5, amended: every unreadable source is skipped without aborting the
cycle and contributes nothing: the returned totals sum exactly the
counters of the snapshots readable in that cycle.  A source is present in
the per-worker table of the view if and only if it was readable in this
cycle or already present from an earlier cycle; only sources never yet
read are absent. -/
theorem c5_partial_failure_amended (now : Int) (files : List (String × Option WorkerSnapshot))
    (prev : List (String × ServerStats)) (ip : String) :
    (collect_stats now files prev).1.goods = ((readSnaps files).map (fun d => d.goods)).sum ∧
    (collect_stats now files prev).1.bads = ((readSnaps files).map (fun d => d.bads)).sum ∧
    (collect_stats now files prev).1.errors = ((readSnaps files).map (fun d => d.errors)).sum ∧
    (collect_stats now files prev).1.offline = ((readSnaps files).map (fun d => d.offline)).sum ∧
    (collect_stats now files prev).1.ipblock = ((readSnaps files).map (fun d => d.ipblock)).sum ∧
    (collect_stats now files prev).1.processed
      = ((readSnaps files).map (fun d => d.processed)).sum ∧
    hasKey (collect_stats now files prev).2 ip
      = (hasKey prev ip || (readableIps files).any (fun x => x == ip)) := by
  unfold collect_stats
  refine ⟨?_, ?_, ?_, ?_, ?_, ?_, ?_⟩
  · simpa [AggregatedStats.zero] using collect_goods_aux now files AggregatedStats.zero [] prev
  · simpa [AggregatedStats.zero] using collect_bads_aux now files AggregatedStats.zero [] prev
  · simpa [AggregatedStats.zero] using collect_errors_aux now files AggregatedStats.zero [] prev
  · simpa [AggregatedStats.zero] using collect_offline_aux now files AggregatedStats.zero [] prev
  · simpa [AggregatedStats.zero] using collect_ipblock_aux now files AggregatedStats.zero [] prev
  · simpa [AggregatedStats.zero] using collect_processed_aux now files AggregatedStats.zero [] prev
  · simpa using collect_keys_aux now files AggregatedStats.zero [] prev ip

/-- C6: a readable snapshot is classified active exactly when
now - timestamp < 30; stale snapshots still contribute their counters to
the totals; in the spec scenario (one snapshot 10 seconds old, one 60
seconds old) the view reports active_servers = 1 and servers = 2 while
both snapshots' counters are summed. -/
theorem c6_liveness_classification (now : Int) (ip1 ip2 : String) (d1 d2 : WorkerSnapshot)
    (hip : (ip1 == ip2) = false)
    (h1 : d1.timestamp = some (now - 10)) (h2 : d2.timestamp = some (now - 60)) :
    ((collect_stats now [(ip1, some d1), (ip2, some d2)] []).1.active_servers = 1 ∧
     (collect_stats now [(ip1, some d1), (ip2, some d2)] []).1.servers = 2 ∧
     (collect_stats now [(ip1, some d1), (ip2, some d2)] []).1.processed
       = d1.processed + d2.processed ∧
     (collect_stats now [(ip1, some d1), (ip2, some d2)] []).1.goods
       = d1.goods + d2.goods) ∧
    ∀ (ip : String) (d : WorkerSnapshot) (ts : Int), d.timestamp = some ts →
      ((collect_stats now [(ip, some d)] []).1.active_servers
          = if now - ts < 30 then 1 else 0) ∧
      (collect_stats now [(ip, some d)] []).1.processed = d.processed := by
  have a1 : isActive now (now - 10) = true := by
    simp only [isActive, decide_eq_true_eq]
    omega
  have a2 : isActive now (now - 60) = false := by
    simp only [isActive, decide_eq_false_iff_not]
    omega
  constructor
  · simp [collect_stats, collectStep, ServerStats.from_dict, h1, h2, a1, a2,
      insertActive, insertServer, hasKey, hip, AggregatedStats.zero]
  · intro ip d ts hts
    constructor
    · by_cases hact : now - ts < 30
      · have a : isActive now ts = true := by
          simp only [isActive, decide_eq_true_eq]; exact hact
        simp [collect_stats, collectStep, ServerStats.from_dict, hts, a,
          insertActive, insertServer, hact, AggregatedStats.zero]
      · have a : isActive now ts = false := by
          simp only [isActive, decide_eq_false_iff_not]; exact hact
        simp [collect_stats, collectStep, ServerStats.from_dict, hts, a,
          insertActive, insertServer, hact, AggregatedStats.zero]
    · simp [collect_stats, collectStep, ServerStats.from_dict, hts, AggregatedStats.zero]

/-- C6 witness: at poll time 100, a snapshot timestamped 90 (10 seconds
old) and one timestamped 40 (60 seconds old) give active_servers = 1 and
servers = 2, with both contributing to the totals. -/
theorem c6_liveness_classification_witness :
    (collect_stats 100 [("a", some c6snap1), ("b", some c6snap2)] []).1.active_servers = 1 ∧
    (collect_stats 100 [("a", some c6snap1), ("b", some c6snap2)] []).1.servers = 2 ∧
    (collect_stats 100 [("a", some c6snap1), ("b", some c6snap2)] []).1.processed
      = c6snap1.processed + c6snap2.processed ∧
    (collect_stats 100 [("a", some c6snap1), ("b", some c6snap2)] []).1.goods
      = c6snap1.goods + c6snap2.goods :=
  (c6_liveness_classification 100 "a" "b" c6snap1 c6snap2 (by decide) (by decide) (by decide)).1

/-- C7, counterexample: with one worker snapshot reporting rps = 5 and
processed = 100, polled at time 50 by an aggregator started at global time
0, the refactored aggregator reports aggregate rps = 5 (the sum of the
per-worker rps values), while the claimed formula processed / (now -
globalStartTime) gives 2; the legacy aggregator's speed also differs from
that formula because of its + 1e-3 term. -/
theorem c7_rps_counterexample :
    (collect_stats 50 [("A", some c7snap)] []).1.rps = 5 ∧
    ((collect_stats 50 [("A", some c7snap)] []).1.processed : ℚ) / (50 - 0) = 2 ∧
    ((5 : ℚ) ≠ 2) ∧
    aggSpeed 100 50 0 ≠ (100 : ℚ) / (50 - 0) := by
  refine ⟨?_, ?_, by norm_num, ?_⟩
  · simp [collect_stats, collectStep, ServerStats.from_dict, c7snap, AggregatedStats.zero]
  · norm_num [collect_stats, collectStep, ServerStats.from_dict, c7snap, AggregatedStats.zero]
  · norm_num [aggSpeed]

/-- C7, amended: the refactored aggregator's reported rps is the sum of
the per-worker rps values of the snapshots readable in the cycle, not
processed / (now - globalStartTime); the legacy aggregator computes its
speed as processed / (now - start + 1/1000), with start fixed at startup
but with an extra 1e-3 term in the denominator. -/
theorem c7_rps_amended (now : Int) (files : List (String × Option WorkerSnapshot))
    (prev : List (String × ServerStats)) (p : Nat) (t start : ℚ) :
    (collect_stats now files prev).1.rps = ((readSnaps files).map (fun d => d.rps)).sum ∧
    aggSpeed p t start = (p : ℚ) / (t - start + 1 / 1000) := by
  constructor
  · unfold collect_stats
    simpa [AggregatedStats.zero] using collect_rps_aux now files AggregatedStats.zero [] prev
  · rfl

/-- C8, counterexample: an explicit HTTP 429 response is classified False
by `check_fortinet` and the item is counted in bads, not in ipblock: the
run of that single item ends with ipblock = 0 and bads = 1, so the
rate-limited signal does not increment the rateLimited counter. -/
theorem c8_ratelimited_counterexample :
    check_fortinet ⟨429, "blocked", ""⟩ = false ∧
    (runStats [eventOfProbe (check_fortinet ⟨429, "blocked", ""⟩) true]).ipblock = 0 ∧
    (runStats [eventOfProbe (check_fortinet ⟨429, "blocked", ""⟩) true]).bads = 1 := by
  decide

/-- C8, amended: the ipblock (rateLimited) counter exists in the stats
dict but no code path of the scanner increments it — it is 0 in every run
— and a 429 response takes the bads (Rejected) path: `check_fortinet`
returns False on any 429 and `process_credential` then increments bads and
leaves ipblock unchanged. -/
theorem c8_ratelimited_amended (evs : List ProbeEvent) (body loc : String) (ok : Bool)
    (s : Stats) :
    (runStats evs).ipblock = 0 ∧
    check_fortinet ⟨429, body, loc⟩ = false ∧
    eventOfProbe (check_fortinet ⟨429, body, loc⟩) ok = ProbeEvent.rejected ∧
    (process_credential s (eventOfProbe (check_fortinet ⟨429, body, loc⟩) ok)).bads
      = s.bads + 1 ∧
    (process_credential s (eventOfProbe (check_fortinet ⟨429, body, loc⟩) ok)).ipblock
      = s.ipblock := by
  have hz : (runStats evs).ipblock = 0 := by
    have h := ipblock_fold_aux evs initStats
    simpa [runStats, initStats] using h
  have hc : check_fortinet ⟨429, body, loc⟩ = false := by
    simp [check_fortinet]
  refine ⟨hz, hc, ?_, ?_, ?_⟩ <;> simp [eventOfProbe, hc, process_credential]

/-- C9, counterexample: an existing credentials file whose lines yield
zero usable records (an empty line and a comment) does not abort startup:
the scanner starts normally with an empty credential list and the process
exits 0, while the claim requires a nonzero exit for an empty source. -/
theorem c9_startup_abort_counterexample :
    scannerStartup (SourceStatus.readable ["", "# comment"])
      = Except.ok ([] : List String) ∧
    scannerExitCode (SourceStatus.readable ["", "# comment"]) = 0 := by
  constructor <;> rfl

/-- C9, amended: the scanner exits nonzero at startup if and only if the
credentials source is missing or unreadable; an existing readable file —
even one with zero usable records — yields a normal run over the parsed
list that exits 0. -/
theorem c9_startup_abort_amended (st : SourceStatus) :
    (scannerExitCode st ≠ 0 ↔ (st = SourceStatus.missing ∨ st = SourceStatus.unreadable)) ∧
    ∀ lines, scannerExitCode (SourceStatus.readable lines) = 0 := by
  constructor
  · cases st <;> simp [scannerExitCode, scannerStartup]
  · intro lines; rfl

/-- C9 witness: a missing credentials file makes the scanner exit
nonzero. -/
theorem c9_startup_abort_amended_witness :
    scannerExitCode SourceStatus.missing ≠ 0 :=
  (c9_startup_abort_amended SourceStatus.missing).1.mpr (Or.inl rfl)

/-- C10: a snapshot that parses but has no timestamp field gets the
current poll time substituted by `ServerStats.from_dict`, hence always
passes the liveness test and is counted active in every cycle; the
snapshot JSON written by src/vpn_scanner.py carries no timestamp field. -/
theorem c10_missing_timestamp_active (now : Int) (ip : String) (d : WorkerSnapshot)
    (hts : d.timestamp = none) :
    (ServerStats.from_dict ip now d).timestamp = now ∧
    isActive now (ServerStats.from_dict ip now d).timestamp = true ∧
    (collect_stats now [(ip, some d)] []).1.active_servers = 1 ∧
    ∀ (s : Stats) (r : ℚ), (scannerSnapshot s r).timestamp = none := by
  have hfd : (ServerStats.from_dict ip now d).timestamp = now := by
    simp [ServerStats.from_dict, hts]
  have ha : isActive now now = true := by
    simp only [isActive, decide_eq_true_eq]
    omega
  refine ⟨hfd, by rw [hfd]; exact ha, ?_, fun s r => rfl⟩
  simp [collect_stats, collectStep, ServerStats.from_dict, hts, ha,
    insertActive, insertServer, AggregatedStats.zero]

/-- C10 witness: the snapshot written by the scanner itself (which has no
timestamp field) is classified active at any poll time. -/
theorem c10_missing_timestamp_active_witness :
    (ServerStats.from_dict "w" 5 (scannerSnapshot initStats 0)).timestamp = 5 ∧
    isActive 5 (ServerStats.from_dict "w" 5 (scannerSnapshot initStats 0)).timestamp = true ∧
    (collect_stats 5 [("w", some (scannerSnapshot initStats 0))] []).1.active_servers = 1 := by
  have h := c10_missing_timestamp_active 5 "w" (scannerSnapshot initStats 0) rfl
  exact ⟨h.1, h.2.1, h.2.2.1⟩

end VpnScan
